import Mathlib

/-!
# Verification of the character state-machine core of `ninjas-vs-pirates`

Shallow embedding of `src/main.rs`: the `CharacterState` data model, the
per-tick passes `process_input` (Input Sampler + State Machine + Action Lock),
`process_animation` (Animation Dispatcher) and `process_movement` (Locomotion
Integrator), and the `Update`-schedule registration from `main`.

Real (`f32`) arithmetic of the source is modelled over `ℚ`; every numeric
constant of the source (`0.2`, `0.6`, `1.0`, `1.5`, `4.0`, `-2.5`, the clamp
bounds `±4.0`, frame deltas such as `0.016`) is exactly representable, and the
claimed exact results (`4.0 * 0.1 = 0.4`) hold in `f32` as well since the
factors involved are exactly representable binary floats scaled by powers of
two.  The engine `Timer` (mode `Once`) is modelled by its duration and
saturating elapsed time, with `finished ↔ elapsed ≥ duration`, following the
engine's `Timer::tick` semantics.
-/

namespace NinjasVsPirates

/-- `AnimationState` enum from `src/main.rs` (default `Idle`). -/
inductive AnimationState
  | Idle
  | Punching
  | Kicking
  | Running
  | RunningBackwards
  deriving DecidableEq, Repr

/-- `const RUN_FORWARD_SPEED: f32 = 4.0`. -/
def RUN_FORWARD_SPEED : ℚ := 4

/-- `const RUN_BACKWARDS_SPEED: f32 = -2.5`. -/
def RUN_BACKWARDS_SPEED : ℚ := -(5/2)

/-- Engine `Timer` in mode `Once`: a fixed duration and the elapsed time
accumulated so far (elapsed saturates at the duration on finishing). -/
structure Timer where
  duration : ℚ
  elapsed : ℚ
  deriving DecidableEq, Repr

/-- `Timer::tick(delta)` for mode `Once`: elapsed advances by the frame delta,
clamped at the duration. -/
def Timer.tick (t : Timer) (delta : ℚ) : Timer :=
  { t with elapsed := min (t.elapsed + delta) t.duration }

/-- `Timer::finished()`: elapsed time has reached the duration. -/
def Timer.finished (t : Timer) : Bool :=
  t.duration ≤ t.elapsed

/-- `Timer::from_seconds(d, TimerMode::Once)`: fresh timer, nothing elapsed. -/
def Timer.fromSeconds (d : ℚ) : Timer :=
  ⟨d, 0⟩

/-- Remaining time on a timer: duration minus elapsed. -/
def Timer.remaining (t : Timer) : ℚ :=
  t.duration - t.elapsed

/-- `CharacterState` component: current state, previous state (for edge
detection) and the optional action-lock timer.  `Default` gives
`Idle / Idle / None`. -/
structure CharacterState where
  player_state : AnimationState
  old_player_state : AnimationState
  current_animation_timer : Option Timer
  deriving DecidableEq, Repr

/-- `CharacterState::default()`. -/
def CharacterState.default : CharacterState :=
  ⟨.Idle, .Idle, none⟩

/-- `CharacterState::update_player_state`: shifts the current state into
`old_player_state` and installs the new one. -/
def CharacterState.update_player_state (cs : CharacterState)
    (new_state : AnimationState) : CharacterState :=
  { cs with old_player_state := cs.player_state, player_state := new_state }

/-- Per-frame key facts sampled by `process_input`: `just_pressed` for the
punch (`P`) and kick (`K`) keys, `pressed` for the left (`A`) and right (`D`)
movement keys. -/
structure Keys where
  just_pressed_punch : Bool
  just_pressed_kick : Bool
  pressed_left : Bool
  pressed_right : Bool
  deriving DecidableEq, Repr, Fintype

/-- The intent computation of `process_input` (lines 194-203): the
`if`/`else if` chain over the sampled keys, defaulting to `Idle`. -/
def computeNewState (keys : Keys) : AnimationState :=
  if keys.just_pressed_punch then .Punching
  else if keys.just_pressed_kick then .Kicking
  else if keys.pressed_right && !keys.pressed_left then .Running
  else if keys.pressed_left && !keys.pressed_right then .RunningBackwards
  else .Idle

/-- `process_input` for one character (lines 179-206): if an action-lock timer
is present it is ticked by the frame delta; unless it finished the whole step
is skipped (`continue`).  If it finished it is cleared and, like the unlocked
case, a fresh intent is computed and applied via `update_player_state`. -/
def process_input (keys : Keys) (delta : ℚ) (cs : CharacterState) :
    CharacterState :=
  match cs.current_animation_timer with
  | some t =>
    let t' := t.tick delta
    if t'.finished then
      ({ cs with current_animation_timer := none }).update_player_state
        (computeNewState keys)
    else
      { cs with current_animation_timer := some t' }
  | none => cs.update_player_state (computeNewState keys)

/-- The animation clips of the `Animations` resource. -/
inductive Clip
  | idle
  | run_forwards
  | walk_backwards
  | punch
  | kick
  deriving DecidableEq, Repr

/-- Sound cues spawned by the dispatcher (`punch.ogg` / `kick.ogg`). -/
inductive Sound
  | punch
  | kick
  deriving DecidableEq, Repr

/-- A play request issued to the engine `AnimationPlayer`:
`play_with_transition(clip, blend)` resets the playing animation to engine
defaults (speed `1.0`, non-looping); `.repeat()` makes it looping,
`.set_speed(s)` overrides the speed. -/
structure PlayCommand where
  clip : Clip
  blend : ℚ
  speed : ℚ
  looping : Bool
  deriving DecidableEq, Repr

/-- The dispatch body of `process_animation` for one resolved character
(lines 222-283): skip when there is no edge (`player_state =
old_player_state`) or a lock is pending; otherwise issue the play command for
the current state, arming the action lock and spawning the sound cue for the
two locking states. -/
def process_animation_character (cs : CharacterState) :
    CharacterState × Option PlayCommand × Option Sound :=
  if cs.player_state = cs.old_player_state ∨
      cs.current_animation_timer.isSome then
    (cs, none, none)
  else
    match cs.player_state with
    | .Idle => (cs, some ⟨.idle, 1/5, 1, true⟩, none)
    | .Punching =>
      ({ cs with current_animation_timer := some (Timer.fromSeconds (3/5)) },
        some ⟨.punch, 1/5, 3/2, false⟩, some .punch)
    | .Kicking =>
      ({ cs with current_animation_timer := some (Timer.fromSeconds 1) },
        some ⟨.kick, 1/5, 3/2, false⟩, some .kick)
    | .Running => (cs, some ⟨.run_forwards, 1/5, 1, true⟩, none)
    | .RunningBackwards => (cs, some ⟨.walk_backwards, 1/5, 1, true⟩, none)

/-- Outcome of one `process_animation` loop iteration including entity
resolution (lines 217-286): the grandparent entity lookup is `.unwrap()`ed
(panic when absent), the `CharacterState` lookup is matched (`Err` arm skips
silently). -/
inductive DispatchOutcome
  | panicked
  | skipped
  | ran (cs : CharacterState) (play : Option PlayCommand)
      (sound : Option Sound)
  deriving DecidableEq, Repr

/-- One `process_animation` loop iteration: `parent_query.get(..).unwrap()`
then `match character_state.get_mut(..)`.  The grandparent lookup result and
the character-state lookup result are passed in as the collaborator's
answers. -/
def process_animation_entity (grandparent : Option Unit)
    (stateRecord : Option CharacterState) : DispatchOutcome :=
  match grandparent with
  | none => .panicked
  | some _ =>
    match stateRecord with
    | none => .skipped
    | some cs =>
      let r := process_animation_character cs
      .ran r.1 r.2.1 r.2.2

/-- Rust `f32::clamp(lo, hi)`. -/
def rustClamp (x lo hi : ℚ) : ℚ :=
  if x < lo then lo else if x > hi then hi else x

/-- The pre-clamp per-tick displacement along the movement axis implied by the
two branches of `process_movement`. -/
def displacement (s : AnimationState) (delta : ℚ) : ℚ :=
  if s = .Running then RUN_FORWARD_SPEED * delta
  else if s = .RunningBackwards then RUN_BACKWARDS_SPEED * delta
  else 0

/-- `process_movement` for one character (lines 290-300): add the speed-scaled
delta for the two running states, then clamp the x translation to
`[-4.0, 4.0]`. -/
def process_movement (delta : ℚ) (cs : CharacterState) (x : ℚ) : ℚ :=
  let x1 :=
    if cs.player_state = .Running then x + RUN_FORWARD_SPEED * delta
    else if cs.player_state = .RunningBackwards then
      x + RUN_BACKWARDS_SPEED * delta
    else x
  rustClamp x1 (-4) 4

/-- A character entity: its `Player` tag (`true` for the ninja, `false` for
the pirate `Enemy`), its `CharacterState` component and its x translation. -/
structure Character where
  isPlayer : Bool
  cs : CharacterState
  x : ℚ
  deriving DecidableEq, Repr

/-- The ninja as spawned by `setup_ninja`: tagged `Player`, default
`CharacterState`, x translation `-3.0`. -/
def ninjaSpawn : Character :=
  ⟨true, CharacterState.default, -3⟩

/-- The pirate as spawned by `setup_pirate`: tagged `Enemy` (not `Player`),
default `CharacterState`, x translation `3.0`. -/
def pirateSpawn : Character :=
  ⟨false, CharacterState.default, 3⟩

/-- One tick of the per-character pipeline in the order the spec requires
(Input Sampler / State Machine, then Animation Dispatcher, then Locomotion
Integrator): `process_input` runs only for `Player`-tagged entities (its query
has `With<Player>`), `process_animation` and `process_movement` run for every
character that has a `CharacterState`. -/
def characterTick (keys : Keys) (delta : ℚ) (c : Character) :
    Character × Option PlayCommand × Option Sound :=
  let cs1 := if c.isPlayer then process_input keys delta c.cs else c.cs
  let r := process_animation_character cs1
  (⟨c.isPlayer, r.1, process_movement delta r.1 c.x⟩, r.2.1, r.2.2)

/-- One tick with the Animation Dispatcher scheduled BEFORE the Input
Sampler / State Machine — an order the `Update` registration in `main` also
admits, since the system tuple carries no ordering constraints. -/
def characterTickAnimFirst (keys : Keys) (delta : ℚ) (c : Character) :
    Character × Option PlayCommand × Option Sound :=
  let r := process_animation_character c.cs
  let cs2 := if c.isPlayer then process_input keys delta r.1 else r.1
  (⟨c.isPlayer, cs2, process_movement delta cs2 c.x⟩, r.2.1, r.2.2)

/-- The observable output of one tick (for traces). -/
structure TickOutput where
  frame : Character
  play : Option PlayCommand
  sound : Option Sound
  deriving DecidableEq, Repr

/-- Run a sequence of ticks, returning the final character. -/
def runTicks : List (Keys × ℚ) → Character → Character
  | [], c => c
  | p :: rest, c => runTicks rest (characterTick p.1 p.2 c).1

/-- Run a sequence of ticks, recording each tick's resulting character and
dispatch output. -/
def runTrace : List (Keys × ℚ) → Character → List TickOutput
  | [], _ => []
  | p :: rest, c =>
    let r := characterTick p.1 p.2 c
    ⟨r.1, r.2.1, r.2.2⟩ :: runTrace rest r.1

/-- The systems registered in the `Update` schedule by `main`. -/
inductive SystemId
  | setupSceneOnceLoaded
  | processInput
  | processAnimation
  | processMovement
  | collisionPointsPlayer
  | collisionPointsEnemy
  | displayEvents
  | updateCameraman
  | closeOnEsc
  deriving DecidableEq, Repr

/-- The `Update` registration from `main` (lines 508-521): one unordered
system tuple plus `close_on_esc`. -/
def updateSystems : List SystemId :=
  [.setupSceneOnceLoaded, .processInput, .processAnimation, .processMovement,
    .collisionPointsPlayer, .collisionPointsEnemy, .displayEvents,
    .updateCameraman, .closeOnEsc]

/-- The ordering constraints (`.chain()`, `.before(..)`, `.after(..)`)
declared on the `Update` systems in `main`: there are none. -/
def updateOrderingConstraints : List (SystemId × SystemId) :=
  []

/-- `order` respects every declared before/after constraint. -/
def respectsConstraints (order : List SystemId) : Bool :=
  updateOrderingConstraints.all fun p =>
    order.indexOf p.1 < order.indexOf p.2

/-- An execution order of one `Update` pass is admitted by the schedule iff it
runs each registered system once and respects the declared constraints. -/
def scheduleAllows (order : List SystemId) : Bool :=
  decide (List.Perm order updateSystems) && respectsConstraints order

/-- Frame with no relevant key held or pressed. -/
def noKeys : Keys :=
  ⟨false, false, false, false⟩

/-- Frame on which the punch key `P` is just pressed. -/
def punchKeys : Keys :=
  ⟨true, false, false, false⟩

/-- Frame on which the kick key `K` is just pressed. -/
def kickKeys : Keys :=
  ⟨false, true, false, false⟩

/-- Frame on which the right movement key `D` is held. -/
def rightKeys : Keys :=
  ⟨false, false, false, true⟩

/-- The concrete kick scenario of the spec: one tick with Kick just pressed at
`delta = 0.016`, followed by 63 ticks with no input at the same delta. -/
def kickInputs : List (Keys × ℚ) :=
  (kickKeys, 2/125) :: List.replicate 63 (noKeys, 2/125)

/-- A permutation of the `Update` systems that runs the Animation Dispatcher
before the Input Sampler / State Machine. -/
def animBeforeInputOrder : List SystemId :=
  [.setupSceneOnceLoaded, .processAnimation, .processInput, .processMovement,
    .collisionPointsPlayer, .collisionPointsEnemy, .displayEvents,
    .updateCameraman, .closeOnEsc]

/-- Claim C1: for a character whose action lock is present at the start of the
state-machine step, if ticking the lock by the frame delta does not finish it
then the whole record is unchanged except that the lock has advanced (current
and previous state untouched, intent dropped, lock preserved); if ticking
finishes it, the lock is cleared and the freshly computed intent is applied
within the same tick. -/
theorem C1_action_lock_gating (keys : Keys) (delta : ℚ) (cs : CharacterState)
    (t : Timer) (h : cs.current_animation_timer = some t) :
    ((t.tick delta).finished = false →
      process_input keys delta cs =
        { cs with current_animation_timer := some (t.tick delta) }) ∧
    ((t.tick delta).finished = true →
      (process_input keys delta cs).player_state = computeNewState keys ∧
      (process_input keys delta cs).old_player_state = cs.player_state ∧
      (process_input keys delta cs).current_animation_timer = none) := by
  constructor <;> intro hf <;>
    simp [process_input, h, hf, CharacterState.update_player_state]

unseal Rat.add Rat.mul Rat.inv Rat.sub Nat.gcd in
/-- Witness for C1: a character locked by a fresh punch timer (0.6 s), ticked
by 0.01 s, keeps its states and its (advanced) lock. -/
theorem C1_action_lock_gating_witness :
    process_input kickKeys (1/100) ⟨.Punching, .Idle, some ⟨3/5, 0⟩⟩ =
      ⟨.Punching, .Idle, some ⟨3/5, 1/100⟩⟩ := by
  have h := (C1_action_lock_gating kickKeys (1/100)
      ⟨.Punching, .Idle, some ⟨3/5, 0⟩⟩ ⟨3/5, 0⟩ rfl).1 (by decide)
  exact h.trans (by decide)

/-- Counterexample to claim C2: holding both movement keys simultaneously
(no punch/kick) yields `Idle`, not `Running` as the claim states. -/
theorem C2_counterexample :
    computeNewState ⟨false, false, true, true⟩ = .Idle ∧
    computeNewState ⟨false, false, true, true⟩ ≠ .Running := by
  decide

/-- Claim C2 (amended): the sampler yields the unique highest-precedence
request under Punch > Kick > MoveForward > MoveBackward > Idle, except that
each movement direction also requires the opposite key to be released, so
holding both movement keys yields `Idle`; Punch together with MoveForward
yields `Punching`, and no relevant key yields `Idle`. -/
theorem C2_intent_precedence :
    (∀ k : Keys, k.just_pressed_punch = true → computeNewState k = .Punching) ∧
    (∀ k : Keys, k.just_pressed_punch = false → k.just_pressed_kick = true →
      computeNewState k = .Kicking) ∧
    (∀ k : Keys, k.just_pressed_punch = false → k.just_pressed_kick = false →
      k.pressed_right = true → k.pressed_left = false →
      computeNewState k = .Running) ∧
    (∀ k : Keys, k.just_pressed_punch = false → k.just_pressed_kick = false →
      k.pressed_left = true → k.pressed_right = false →
      computeNewState k = .RunningBackwards) ∧
    computeNewState ⟨false, false, false, false⟩ = .Idle ∧
    computeNewState ⟨true, false, false, true⟩ = .Punching ∧
    (∀ k : Keys, k.just_pressed_punch = false → k.just_pressed_kick = false →
      k.pressed_left = true → k.pressed_right = true →
      computeNewState k = .Idle) := by
  refine ⟨?_, ?_, ?_, ?_, ?_, ?_, ?_⟩ <;> decide

/-- Witness for C2: punch just pressed together with the right movement key
held yields `Punching`. -/
theorem C2_intent_precedence_witness :
    computeNewState ⟨true, false, false, true⟩ = .Punching :=
  C2_intent_precedence.1 ⟨true, false, false, true⟩ rfl

unseal Rat.add Rat.mul Rat.inv Rat.sub Nat.gcd in
/-- Counterexample to claim C3: after punching on tick 1 and ticking once more
while locked, tick 2 merely sustains `Punching` (the state equals tick 1's
state), yet the edge flag `current_state ≠ previous_state` is still true
(`Punching ≠ Idle`), so the flag is not false on every sustained tick. -/
theorem C3_counterexample :
    ((runTrace [(punchKeys, 1/100), (noKeys, 1/100)] ninjaSpawn).map
        fun o => (o.frame.cs.player_state, o.frame.cs.old_player_state)) =
      [(.Punching, .Idle), (.Punching, .Idle)] ∧
    AnimationState.Punching ≠ AnimationState.Idle := by
  refine ⟨by decide, by decide⟩

unseal Rat.add Rat.mul Rat.inv Rat.sub Nat.gcd in
/-- Claim C3 (amended): on any tick that starts unlocked, the edge flag
`current_state ≠ previous_state` after the state-machine step is true exactly
when the tick actually changed the state (while a lock is pending the flag can
stay true on sustained ticks); the Animation Dispatcher issues a play-clip
command only when the flag is true AND no lock is pending; and holding
MoveForward for 3 consecutive ticks produces exactly one play-clip dispatch,
on the entering tick. -/
theorem C3_edge_triggered_dispatch :
    (∀ (keys : Keys) (delta : ℚ) (cs : CharacterState),
      cs.current_animation_timer = none →
      ((process_input keys delta cs).player_state ≠
          (process_input keys delta cs).old_player_state ↔
        computeNewState keys ≠ cs.player_state)) ∧
    (∀ cs : CharacterState,
      (process_animation_character cs).2.1 ≠ none →
      cs.player_state ≠ cs.old_player_state ∧
      cs.current_animation_timer = none) ∧
    ((runTrace (List.replicate 3 (rightKeys, 1/100)) ninjaSpawn).map
        fun o => o.play) =
      [some ⟨.run_forwards, 1/5, 1, true⟩, none, none] := by
  refine ⟨?_, ?_, by decide⟩
  · intro keys delta cs h
    simp [process_input, h, CharacterState.update_player_state]
  · intro cs h
    constructor
    · intro e
      rw [process_animation_character, if_pos (Or.inl e)] at h
      exact h rfl
    · cases hcs : cs.current_animation_timer with
      | none => rfl
      | some t =>
        rw [process_animation_character,
          if_pos (Or.inr (by rw [hcs]; rfl))] at h
        exact absurd rfl h

/-- Witness for C3: entering Running from a fresh unlocked character raises
the edge flag. -/
theorem C3_edge_triggered_dispatch_witness :
    (process_input rightKeys (1/100) CharacterState.default).player_state ≠
      (process_input rightKeys (1/100) CharacterState.default).old_player_state :=
  (C3_edge_triggered_dispatch.1 rightKeys (1/100) CharacterState.default
    rfl).mpr (by decide)

/-- Claim C4: on a detected transition (edge flag true, no pending lock) the
dispatcher requests, for the three locomotion states, a looping clip with a
0.2 s blend-in at speed 1.0 and no sound or lock; for `Punching` a non-looping
clip at 1.5x speed, arms the 0.6 s punch lock and emits one punch sound; for
`Kicking` a non-looping clip at 1.5x speed, arms the 1.0 s kick lock and emits
one kick sound. -/
theorem C4_dispatch_table (cs : CharacterState)
    (hedge : cs.player_state ≠ cs.old_player_state)
    (hlock : cs.current_animation_timer = none) :
    (cs.player_state = .Idle →
      process_animation_character cs =
        (cs, some ⟨.idle, 1/5, 1, true⟩, none)) ∧
    (cs.player_state = .Running →
      process_animation_character cs =
        (cs, some ⟨.run_forwards, 1/5, 1, true⟩, none)) ∧
    (cs.player_state = .RunningBackwards →
      process_animation_character cs =
        (cs, some ⟨.walk_backwards, 1/5, 1, true⟩, none)) ∧
    (cs.player_state = .Punching →
      process_animation_character cs =
        ({ cs with current_animation_timer := some (Timer.fromSeconds (3/5)) },
          some ⟨.punch, 1/5, 3/2, false⟩, some .punch)) ∧
    (cs.player_state = .Kicking →
      process_animation_character cs =
        ({ cs with current_animation_timer := some (Timer.fromSeconds 1) },
          some ⟨.kick, 1/5, 3/2, false⟩, some .kick)) := by
  have hguard : ¬(cs.player_state = cs.old_player_state ∨
      cs.current_animation_timer.isSome) := by
    simp [hedge, hlock]
  refine ⟨?_, ?_, ?_, ?_, ?_⟩ <;> intro hs <;>
    simp [process_animation_character, hguard, hs] <;>
    exact ⟨by rw [← hs]; exact hedge, hlock⟩

/-- Witness for C4: a fresh kick transition dispatches the kick clip at 1.5x,
arms the 1.0 s lock and emits the kick sound. -/
theorem C4_dispatch_table_witness :
    process_animation_character ⟨.Kicking, .Idle, none⟩ =
      (⟨.Kicking, .Idle, some (Timer.fromSeconds 1)⟩,
        some ⟨.kick, 1/5, 3/2, false⟩, some .kick) :=
  (C4_dispatch_table ⟨.Kicking, .Idle, none⟩ (by decide) rfl).2.2.2.2 rfl

unseal Rat.add Rat.mul Rat.inv Rat.sub Nat.gcd in
/-- Counterexample to claim C5: at the end of the tick on which Kick is just
pressed with `delta = 0.016`, the armed lock still has its FULL 1.0 s
remaining (the timer is created during the dispatch pass of the same tick and
is first advanced only on the following tick), not `1.0 - 0.016` as the claim
states. -/
theorem C5_counterexample :
    ((runTrace (kickInputs.take 1) ninjaSpawn).map
        fun o => o.frame.cs.current_animation_timer.map Timer.remaining) =
      [some 1] ∧
    (1 : ℚ) ≠ 1 - 2/125 := by
  refine ⟨by decide, by decide⟩

unseal Rat.add Rat.mul Rat.inv Rat.sub Nat.gcd in
/-- Claim C5 (amended): starting from Idle and unlocked, the tick on which
Kick is just pressed with `delta = 0.016` makes the state `Kicking`, arms the
lock with its full 1.0 s remaining at end of tick (it is first advanced on the
next tick), and dispatches the kick clip at 1.5x speed plus one kick-sound
event, exactly once; every subsequent 0.016 s tick keeps the state `Kicking`
with no further dispatch; and on the tick where the elapsed lock time reaches
1.0 s (tick 64), with no input held, the state becomes `Idle` and the idle
clip is dispatched exactly once. -/
theorem C5_kick_scenario :
    ((runTrace kickInputs ninjaSpawn).map
        fun o => o.frame.cs.player_state) =
      List.replicate 63 .Kicking ++ [.Idle] ∧
    ((runTrace kickInputs ninjaSpawn).map fun o => o.play) =
      some ⟨.kick, 1/5, 3/2, false⟩ ::
        (List.replicate 62 none ++ [some ⟨.idle, 1/5, 1, true⟩]) ∧
    ((runTrace kickInputs ninjaSpawn).map fun o => o.sound) =
      some .kick :: List.replicate 63 none ∧
    ((runTrace (kickInputs.take 1) ninjaSpawn).map
        fun o => o.frame.cs.current_animation_timer) =
      [some (Timer.fromSeconds 1)] := by
  refine ⟨by decide, by decide, by decide, by decide⟩

/-- Counterexample to claim C6: when the rig's grandparent entity cannot be
resolved, `process_animation` panics (`.unwrap()`), it does not skip the
character; the claim that a resolution failure is never fatal is false. -/
theorem C6_counterexample :
    process_animation_entity none (some CharacterState.default) =
      .panicked ∧
    DispatchOutcome.panicked ≠ DispatchOutcome.skipped := by
  exact ⟨rfl, by decide⟩

/-- Claim C6 (amended): if the character's state record cannot be resolved
during dispatch, the dispatcher skips that character for the frame (the `Err`
arm does nothing, so the attempt recurs next frame) and does not abort; but if
the rig's grandparent entity lookup fails, the dispatcher panics — that
failure IS fatal. -/
theorem C6_resolution_failures :
    process_animation_entity (some ()) none = DispatchOutcome.skipped ∧
    (∀ cs : CharacterState,
      process_animation_entity none (some cs) = DispatchOutcome.panicked) := by
  exact ⟨rfl, fun _ => rfl⟩

/-- Claim C7: each tick the pre-clamp displacement along the movement axis is
`+forward_speed * delta` (4.0, positive) for `Running`, a strictly smaller
magnitude negative `backward_speed * delta` (-2.5) for `RunningBackwards`,
zero for the three non-moving states; `process_movement` is exactly clamp of
position plus that displacement; with `delta = 0.1` the Running displacement
is exactly `+0.4`. -/
theorem C7_displacement (delta : ℚ) (h : 0 < delta) :
    (∀ (cs : CharacterState) (x : ℚ),
      process_movement delta cs x =
        rustClamp (x + displacement cs.player_state delta) (-4) 4) ∧
    displacement .Running delta = RUN_FORWARD_SPEED * delta ∧
    displacement .RunningBackwards delta = RUN_BACKWARDS_SPEED * delta ∧
    0 < displacement .Running delta ∧
    displacement .RunningBackwards delta < 0 ∧
    |displacement .RunningBackwards delta| < |displacement .Running delta| ∧
    displacement .Idle delta = 0 ∧
    displacement .Punching delta = 0 ∧
    displacement .Kicking delta = 0 ∧
    displacement .Running (1/10) = 2/5 := by
  have eR : displacement .Running delta = 4 * delta := rfl
  have eB : displacement .RunningBackwards delta = -(5/2) * delta := rfl
  refine ⟨?_, rfl, rfl, ?_, ?_, ?_, rfl, rfl, rfl, ?_⟩
  · intro cs x
    rcases cs with ⟨s, o, t⟩
    cases s <;> simp [process_movement, displacement]
  · rw [eR]; linarith
  · rw [eB]; linarith
  · rw [eR, eB, abs_of_neg (by linarith), abs_of_pos (by linarith)]
    linarith
  · show (if AnimationState.Running = AnimationState.Running then
        RUN_FORWARD_SPEED * (1/10) else _) = 2/5
    rw [if_pos rfl, RUN_FORWARD_SPEED]
    norm_num

/-- Witness for C7: at `delta = 0.1`, the Running displacement is `+0.4`. -/
theorem C7_displacement_witness :
    displacement AnimationState.Running (1/10) = 2/5 :=
  (C7_displacement (1/10) (by norm_num)).2.2.2.2.2.2.2.2.2

/-- The clamp to the arena interval always lands inside `[-4, 4]`. -/
lemma rustClamp_mem (y : ℚ) :
    -4 ≤ rustClamp y (-4) 4 ∧ rustClamp y (-4) 4 ≤ 4 := by
  unfold rustClamp
  split_ifs <;> constructor <;> linarith

/-- Every `process_movement` result lies in the arena interval. -/
lemma process_movement_mem (delta : ℚ) (cs : CharacterState) (x : ℚ) :
    -4 ≤ process_movement delta cs x ∧ process_movement delta cs x ≤ 4 :=
  rustClamp_mem _

/-- Every tick ends with an in-bounds x translation. -/
lemma characterTick_x_mem (keys : Keys) (delta : ℚ) (c : Character) :
    -4 ≤ (characterTick keys delta c).1.x ∧
    (characterTick keys delta c).1.x ≤ 4 :=
  process_movement_mem _ _ _

/-- Bounds are preserved by any run of ticks. -/
lemma runTicks_x_mem (inputs : List (Keys × ℚ)) (c : Character)
    (h1 : -4 ≤ c.x) (h2 : c.x ≤ 4) :
    -4 ≤ (runTicks inputs c).x ∧ (runTicks inputs c).x ≤ 4 := by
  induction inputs generalizing c with
  | nil => exact ⟨h1, h2⟩
  | cons p rest ih =>
    have hm := characterTick_x_mem p.1 p.2 c
    exact ih _ hm.1 hm.2

/-- Claim C8: after each tick's displacement the x position is clamped to
`[-4, 4]`; the clamp is idempotent and the identity on positions already
inside the interval; every `process_movement` result is in bounds, and after
any nonempty sequence of ticks from any start the position does not exceed
the bounds. -/
theorem C8_arena_clamp :
    (∀ x : ℚ, rustClamp (rustClamp x (-4) 4) (-4) 4 = rustClamp x (-4) 4) ∧
    (∀ x : ℚ, -4 ≤ x → x ≤ 4 → rustClamp x (-4) 4 = x) ∧
    (∀ (delta : ℚ) (cs : CharacterState) (x : ℚ),
      -4 ≤ process_movement delta cs x ∧ process_movement delta cs x ≤ 4) ∧
    (∀ (inputs : List (Keys × ℚ)) (c : Character), inputs ≠ [] →
      -4 ≤ (runTicks inputs c).x ∧ (runTicks inputs c).x ≤ 4) := by
  have hid : ∀ x : ℚ, -4 ≤ x → x ≤ 4 → rustClamp x (-4) 4 = x := by
    intro x h1 h2
    unfold rustClamp
    split_ifs <;> linarith
  refine ⟨?_, hid, process_movement_mem, ?_⟩
  · intro x
    exact hid _ (rustClamp_mem x).1 (rustClamp_mem x).2
  · intro inputs c hne
    cases inputs with
    | nil => exact absurd rfl hne
    | cons p rest =>
      have hm := characterTick_x_mem p.1 p.2 c
      exact runTicks_x_mem rest _ hm.1 hm.2

unseal Rat.add Rat.mul Rat.inv Rat.sub Nat.gcd in
/-- Witness for C8: clamping the out-of-bounds position 5 twice gives 4, the
in-bounds position 3 is untouched, and one Running tick from x = 3.98 at
delta 0.1 stays at the bound 4. -/
theorem C8_arena_clamp_witness :
    rustClamp (rustClamp 5 (-4) 4) (-4) 4 = rustClamp 5 (-4) 4 ∧
    rustClamp 3 (-4) 4 = 3 ∧
    (-4 ≤ (runTicks [(rightKeys, 1/10)]
        ⟨true, ⟨.Running, .Running, none⟩, 399/100⟩).x ∧
      (runTicks [(rightKeys, 1/10)]
        ⟨true, ⟨.Running, .Running, none⟩, 399/100⟩).x ≤ 4) ∧
    (runTicks [(rightKeys, 1/10)] ⟨true, ⟨.Running, .Running, none⟩, 399/100⟩).x
      = 4 := by
  refine ⟨C8_arena_clamp.1 5,
    C8_arena_clamp.2.1 3 (by norm_num) (by norm_num),
    C8_arena_clamp.2.2.2 [(rightKeys, 1/10)]
      ⟨true, ⟨.Running, .Running, none⟩, 399/100⟩ (by decide),
    by decide⟩

unseal Rat.add Rat.mul Rat.inv Rat.sub Nat.gcd in
/-- Claim C9 is not honoured by the code: the `Update` registration in `main`
declares NO ordering constraints between the four passes, so the engine may
legally run the Animation Dispatcher before the Input Sampler / State Machine
within a tick, and on the tick where Punch is just pressed from Idle that
order observably diverges from the claimed order (no clip is dispatched and
no lock is armed on that tick). -/
theorem C9_schedule_unordered :
    updateOrderingConstraints = [] ∧
    scheduleAllows animBeforeInputOrder = true ∧
    characterTickAnimFirst punchKeys (1/100) ninjaSpawn ≠
      characterTick punchKeys (1/100) ninjaSpawn := by
  refine ⟨rfl, by decide, by decide⟩

/-- Claim C10: the pirate `Enemy` is spawned with the default state record;
`process_input` filters on `With<Player>` so no tick's pipeline mutates it:
for every tick sequence its `current_state` and `previous_state` stay `Idle`,
its lock stays absent, every tick dispatches nothing for it, its displacement
is zero each tick, and its x translation stays 3. -/
theorem C10_enemy_inert (inputs : List (Keys × ℚ)) :
    runTicks inputs pirateSpawn = pirateSpawn ∧
    runTrace inputs pirateSpawn =
      inputs.map (fun _ => ⟨pirateSpawn, none, none⟩) ∧
    (∀ delta : ℚ, displacement pirateSpawn.cs.player_state delta = 0) := by
  have ht : ∀ (keys : Keys) (delta : ℚ),
      characterTick keys delta pirateSpawn = (pirateSpawn, none, none) := by
    intro keys delta
    rfl
  induction inputs with
  | nil => exact ⟨rfl, rfl, fun _ => rfl⟩
  | cons p rest ih =>
    refine ⟨?_, ?_, fun _ => rfl⟩
    · show runTicks rest (characterTick p.1 p.2 pirateSpawn).1 = pirateSpawn
      rw [ht p.1 p.2]
      exact ih.1
    · show (⟨(characterTick p.1 p.2 pirateSpawn).1,
          (characterTick p.1 p.2 pirateSpawn).2.1,
          (characterTick p.1 p.2 pirateSpawn).2.2⟩ : TickOutput) ::
          runTrace rest (characterTick p.1 p.2 pirateSpawn).1 =
          ⟨pirateSpawn, none, none⟩ :: rest.map (fun _ => ⟨pirateSpawn, none, none⟩)
      rw [ht p.1 p.2]
      exact congrArg _ ih.2.1

end NinjasVsPirates
